import Mathlib

/-!
Shallow embedding of the SkinScan region-of-interest photometric scoring
pipeline (`src/src/App.js`): region extraction from landmarks (`polyFrom`),
bounded pixel sampling (`samplePolys`), ray-casting point-in-polygon test
(`pointInPoly`), the three photometric scorers, the `drawAndScore`
publication step, the `runLoop` frame step, and the spec's auto-trigger
controller.  JavaScript number arithmetic is embedded as exact rational
(ℚ) arithmetic, with `Math.sqrt` as `Real.sqrt` (the one irrational
operation); machine floating-point rounding is not modelled.
-/

/-- A 2-D point `{x, y}` as used in `App.js`, both for normalized landmarks
(coordinates in `[0,1]`) and for pixel-space polygon vertices. -/
structure Pt where
  x : ℚ
  y : ℚ
deriving DecidableEq, Repr

/-- The JavaScript runtime error relevant to the pipeline: accessing a
property of `undefined` (e.g. `lm[i].x` when index `i` is out of range)
throws a `TypeError`. -/
inductive JsError where
  | typeError
deriving DecidableEq, Repr

/-- `toPx` from `App.js`: convert a normalized landmark to pixel space,
`{x: p.x * w, y: p.y * h}`. -/
def toPx (p : Pt) (w h : ℚ) : Pt := ⟨p.x * w, p.y * h⟩

/-- `polyFrom` from `App.js`: `idxs.map((i) => toPx(lm[i], w, h))`.
When `i` is out of range, `lm[i]` is `undefined` and the `p.x` access inside
`toPx` throws a `TypeError`, so the embedding fails at the first missing
index (the `map` callback runs left to right and the throw aborts it). -/
def polyFrom (lm : List Pt) (idxs : List ℕ) (w h : ℚ) : Except JsError (List Pt) :=
  match idxs with
  | [] => Except.ok []
  | i :: rest =>
    match lm[i]? with
    | none => Except.error JsError.typeError
    | some p =>
      match polyFrom lm rest w h with
      | Except.ok ps => Except.ok (toPx p w h :: ps)
      | Except.error e => Except.error e

/-- `pointInPoly` from `App.js`: ray casting over the vertex pairs `(i, j)`
where `j` is the cyclic predecessor of `i` (`j = poly.length - 1` when
`i = 0`).  The source's `1e-9` slope-denominator epsilon is kept exactly. -/
def pointInPoly (pt : Pt) (poly : List Pt) : Bool :=
  (List.range poly.length).foldl
    (fun inside i =>
      let p := poly.getD i ⟨0, 0⟩
      let q := poly.getD ((i + poly.length - 1) % poly.length) ⟨0, 0⟩
      let intersect :=
        (decide (p.y > pt.y) != decide (q.y > pt.y)) &&
          decide (pt.x < (q.x - p.x) * (pt.y - p.y) / (q.y - p.y + 1 / 1000000000) + p.x)
      if intersect then !inside else inside)
    false

/-- The grid coordinates visited by the loop `for (v = 0; v < n; v += step)`
of `samplePolys`: the values `0, step, 2*step, …` strictly below `n`. -/
def strideIdxs (n step : ℕ) : List ℕ :=
  (List.range ((n + step - 1) / step)).map (· * step)

/-- The drawing surface `samplePolys` reads from: the frame dimensions plus
the pixel buffer, abstracted as an RGB triple per integer coordinate.
(`getImageData(minX, minY, w, h).data` is a row-major RGBA byte array; the
sampler reads exactly the R, G, B bytes at offset `(y*w + x)*4`,
i.e. the pixel at `(minX + x, minY + y)`.) -/
structure Canvas where
  width : ℤ
  height : ℤ
  px : ℤ → ℤ → ℚ × ℚ × ℚ

/-- `samplePolys` from `App.js`: combined bounding box of all polygon
vertices clamped to the frame; empty result when fewer than 3 total
vertices or when the clamped box is ≤ 2 pixels wide or tall; stride
`max(1, floor(sqrt(totalPixels / maxSamples)))` — for naturals
`floor (Real.sqrt (a / b)) = Nat.sqrt (a / b)` with `/` natural division,
since no perfect square lies strictly between `a/b` and its floor; a grid
point is emitted when it lies inside ANY of the polygons.  (The source's
`maxSamples` default is 3000; every caller passes 2500.) -/
def samplePolys (ctx : Canvas) (polys : List (List Pt)) (maxSamples : ℕ) :
    List (ℚ × ℚ × ℚ) :=
  let pts := polys.flatten
  if pts.length < 3 then [] else
  match pts with
  | [] => []
  | p0 :: rest =>
    let minX := rest.foldl (fun a p => min a p.x) p0.x
    let minY := rest.foldl (fun a p => min a p.y) p0.y
    let maxX := rest.foldl (fun a p => max a p.x) p0.x
    let maxY := rest.foldl (fun a p => max a p.y) p0.y
    let minXi : ℤ := max 0 ⌊minX⌋
    let minYi : ℤ := max 0 ⌊minY⌋
    let maxXi : ℤ := min (ctx.width - 1) ⌈maxX⌉
    let maxYi : ℤ := min (ctx.height - 1) ⌈maxY⌉
    let w : ℤ := maxXi - minXi + 1
    let h : ℤ := maxYi - minYi + 1
    if w ≤ 2 ∨ h ≤ 2 then [] else
    let totalPixels := w.toNat * h.toNat
    let step := max 1 (Nat.sqrt (totalPixels / maxSamples))
    ((strideIdxs h.toNat step).map (fun y =>
      (strideIdxs w.toNat step).filterMap (fun x =>
        let gx := minXi + x
        let gy := minYi + y
        if polys.any (fun poly => pointInPoly ⟨(gx : ℚ), (gy : ℚ)⟩ poly) then
          some (ctx.px gx gy)
        else none))).flatten

/-- Per-sample BT.709 relative luminance used by `lightingQualityFromPolys`:
`0.2126*r + 0.7152*g + 0.0722*b`. -/
def lumY (s : ℚ × ℚ × ℚ) : ℚ := 0.2126 * s.1 + 0.7152 * s.2.1 + 0.0722 * s.2.2

/-- `clamp` from `App.js`: `Math.max(a, Math.min(b, v))`. -/
def clamp (v a b : ℚ) : ℚ := max a (min b v)

/-- `clamp` at real type (the lighting score feeds the real-valued
`Math.sqrt` into otherwise rational arithmetic). -/
noncomputable def rclamp (v a b : ℝ) : ℝ := max a (min b v)

/-- The body of `lightingQualityFromPolys` applied to a sample list: 0 when
fewer than 80 samples; otherwise a one-pass accumulation of `Y` and `Y²`,
`variance = sumY2/n - mean²`, `std = sqrt(max(0, variance))`, and
`clamp(0.75*clamp(mean/255*100, 0, 100) + 0.25*clamp(std/64*100, 0, 100), 0, 100)`. -/
noncomputable def lightingFromSamples (rgb : List (ℚ × ℚ × ℚ)) : ℝ :=
  if rgb.length < 80 then 0 else
  let sums := rgb.foldl (fun a s => (a.1 + lumY s, a.2 + lumY s * lumY s)) ((0 : ℚ), (0 : ℚ))
  let mean := sums.1 / rgb.length
  let variance := sums.2 / rgb.length - mean * mean
  let std : ℝ := Real.sqrt ((max 0 variance : ℚ) : ℝ)
  let meanScore := rclamp ((mean : ℝ) / 255 * 100) 0 100
  let contrastScore := rclamp (std / 64 * 100) 0 100
  rclamp (0.75 * meanScore + 0.25 * contrastScore) 0 100

/-- The body of `rednessFromPolys` applied to a sample list: 0 when fewer
than 80 samples; otherwise the mean of the proxy `r - (g+b)/2`, remapped by
`clamp(((mean + 20)/120)*100, 0, 100)`. -/
def rednessFromSamples (rgb : List (ℚ × ℚ × ℚ)) : ℚ :=
  if rgb.length < 80 then 0 else
  let acc := rgb.foldl (fun a s => a + (s.1 - (s.2.1 + s.2.2) / 2)) (0 : ℚ)
  let mean := acc / rgb.length
  clamp ((mean + 20) / 120 * 100) 0 100

/-- The per-sample "shiny" test of `shineFromPolys`: `v > 210 && sat < 0.35`
with `v = max(r,g,b)` and `sat = (maxc === 0) ? 0 : (maxc - minc)/maxc`. -/
def isShiny (s : ℚ × ℚ × ℚ) : Bool :=
  let maxc := max s.1 (max s.2.1 s.2.2)
  let minc := min s.1 (min s.2.1 s.2.2)
  let sat := if maxc = 0 then 0 else (maxc - minc) / maxc
  decide (maxc > 210) && decide (sat < 0.35)

/-- The body of `shineFromPolys` applied to a sample list: 0 when fewer than
80 samples; otherwise `clamp((shinyCount/total)*250, 0, 100)`. -/
def shineFromSamples (rgb : List (ℚ × ℚ × ℚ)) : ℚ :=
  if rgb.length < 80 then 0 else
  clamp ((rgb.countP isShiny : ℚ) / rgb.length * 250) 0 100

/-- `lightingQualityFromPolys` from `App.js` (sample budget 2500). -/
noncomputable def lightingQualityFromPolys (ctx : Canvas) (polys : List (List Pt)) : ℝ :=
  lightingFromSamples (samplePolys ctx polys 2500)

/-- `rednessFromPolys` from `App.js` (sample budget 2500). -/
def rednessFromPolys (ctx : Canvas) (polys : List (List Pt)) : ℚ :=
  rednessFromSamples (samplePolys ctx polys 2500)

/-- `shineFromPolys` from `App.js` (sample budget 2500). -/
def shineFromPolys (ctx : Canvas) (polys : List (List Pt)) : ℚ :=
  shineFromSamples (samplePolys ctx polys 2500)

/-- `Math.round` as used by `setScores`: round half toward positive
infinity, `⌊x + 1/2⌋`. -/
noncomputable def jsRound (x : ℝ) : ℤ := ⌊x + 1 / 2⌋

/-- The payload of `setScores` in `App.js`: the published per-frame scores,
each rounded by `Math.round`. -/
structure ScoreSet where
  lighting : ℤ
  redness : ℤ
  shine : ℤ
deriving DecidableEq, Repr

/-- Landmark indices of the left-cheek region in `drawAndScore`. -/
def leftCheekIdxs : List ℕ := [50, 187, 205, 36, 142, 126, 100, 47]

/-- Landmark indices of the right-cheek region in `drawAndScore`. -/
def rightCheekIdxs : List ℕ := [280, 411, 425, 266, 371, 355, 329, 277]

/-- Landmark indices of the nose region in `drawAndScore`. -/
def noseIdxs : List ℕ := [1, 2, 98, 327, 168]

open Classical in
/-- `drawAndScore` from `App.js`, restricted to its score computation and
`setScores` publication (the overlay fills and HUD text do not affect the
scores).  `Except.ok none` is the early return of the `!w || !h` guard (no
publication); a missing landmark index propagates the `TypeError` raised
inside `polyFrom`; otherwise the published, rounded `ScoreSet` is returned:
lighting from the combined cheek polygons, and redness/shine computed only
when `lighting >= 35`, else left at their initial 0. -/
noncomputable def drawAndScore (ctx : Canvas) (lm : List Pt) :
    Except JsError (Option ScoreSet) :=
  if ctx.width = 0 ∨ ctx.height = 0 then Except.ok none else
  match polyFrom lm leftCheekIdxs ctx.width ctx.height,
      polyFrom lm rightCheekIdxs ctx.width ctx.height,
      polyFrom lm noseIdxs ctx.width ctx.height with
  | Except.error e, _, _ => Except.error e
  | _, Except.error e, _ => Except.error e
  | _, _, Except.error e => Except.error e
  | Except.ok leftCheek, Except.ok rightCheek, Except.ok nose =>
    let lighting := lightingQualityFromPolys ctx [leftCheek, rightCheek]
    let redness : ℚ := if lighting ≥ 35 then rednessFromPolys ctx [leftCheek, rightCheek] else 0
    let shine : ℚ := if lighting ≥ 35 then shineFromPolys ctx [nose] else 0
    Except.ok (some ⟨jsRound lighting, jsRound (redness : ℝ), jsRound (shine : ℝ)⟩)

/-- The host video frame as seen by one iteration of the `runLoop` step:
its readiness state, the `currentTime` used for deduplication, and its
pixel content (the canvas `drawAndScore` samples from, sized
`videoWidth × videoHeight`). -/
structure Frame where
  readyState : ℕ
  currentTime : ℚ
  canvas : Canvas

/-- The mutable state the `runLoop` step reads and writes:
`lastVideoTimeRef`, the `faces` count and the published `scores`. -/
structure LoopState where
  lastVideoTime : ℚ
  faces : ℕ
  scores : ScoreSet

/-- Instrumentation of one `runLoop` step: whether
`landmarker.detectForVideo` was invoked and whether the scoring path
(`drawAndScore`) ran. -/
structure StepEffects where
  detectorInvoked : Bool
  scoringRun : Bool
deriving DecidableEq, Repr

/-- One iteration of the `step` closure inside `runLoop` (`App.js`): skip
unless `readyState >= 2` and `currentTime` differs from the last processed
timestamp; otherwise record the timestamp, invoke the detector (abstracted
as `detect`), publish the face count, and either score the first face via
`drawAndScore` or — when no face is returned — clear the overlay and
publish zero scores. -/
noncomputable def stepLoop (detect : Frame → List (List Pt)) (frame : Frame)
    (s : LoopState) : Except JsError (LoopState × StepEffects) :=
  if 2 ≤ frame.readyState ∧ frame.currentTime ≠ s.lastVideoTime then
    let landmarks := detect frame
    let s1 : LoopState :=
      { s with lastVideoTime := frame.currentTime, faces := landmarks.length }
    match landmarks with
    | [] => Except.ok ({ s1 with scores := ⟨0, 0, 0⟩ }, ⟨true, false⟩)
    | lm :: _ =>
      match drawAndScore frame.canvas lm with
      | Except.error e => Except.error e
      | Except.ok none => Except.ok (s1, ⟨true, true⟩)
      | Except.ok (some sc) => Except.ok ({ s1 with scores := sc }, ⟨true, true⟩)
  else Except.ok (s, ⟨false, false⟩)

/-- Modelled from the spec: the repository source under `src/` contains no
AutoTriggerController implementation (only the `analyzeSkin` classification
call exists; the spec's "full ML-wired variant" revision is absent), so the
trigger state is modelled from the spec's data model:
`{lastFireTimestamp, cooldownMs}`, with `lastFire = none` before the first
fire. -/
structure TriggerState where
  lastFire : Option ℕ
  cooldownMs : ℕ
deriving DecidableEq, Repr

/-- Modelled from the spec: one observation the AutoTriggerController
evaluates — a timestamp (ms), the current lighting score and the detected
face count. -/
structure TrigObs where
  t : ℕ
  lighting : ℚ
  faces : ℕ
deriving DecidableEq, Repr

/-- Modelled from the spec: the AutoTriggerController fire condition —
lighting score ≥ adequacy threshold (35) AND at least one face detected AND
elapsed time since the last fire ≥ cooldown (a controller that has never
fired treats the elapsed time as unbounded). -/
def shouldFire (s : TriggerState) (o : TrigObs) : Bool :=
  decide (35 ≤ o.lighting) && decide (1 ≤ o.faces) &&
    (match s.lastFire with
     | none => true
     | some l => decide (s.cooldownMs ≤ o.t - l))

/-- Modelled from the spec: run the AutoTriggerController over a
chronological list of observations, firing (and recording the fire
timestamp) whenever the condition holds. -/
def trigRun (s : TriggerState) : List TrigObs → List ℕ
  | [] => []
  | o :: rest =>
    if shouldFire s o then o.t :: trigRun { s with lastFire := some o.t } rest
    else trigRun s rest

/-- Modelled from the spec: the simulated 10,000 ms window with steps every
100 ms, lighting 60 (≥ threshold) and one face present at every step. -/
def simObs : List TrigObs :=
  (List.range 100).map (fun k => ⟨100 * k, 60, 1⟩)

/-- Luminance mean of a sample list as the spec words it (two-pass:
sum of per-sample luminances over the count). -/
def specMeanY (rgb : List (ℚ × ℚ × ℚ)) : ℚ := ((rgb.map lumY).sum) / rgb.length

/-- Population standard deviation of the luminances as the spec words it:
the square root of the mean squared deviation from the mean. -/
noncomputable def specStdY (rgb : List (ℚ × ℚ × ℚ)) : ℝ :=
  Real.sqrt (((rgb.map (fun s => (lumY s - specMeanY rgb) ^ 2)).sum / rgb.length : ℚ))

/-- The spec's closed-form lighting score as a function of the luminance
mean and standard deviation:
`clamp(0.75*clamp(mean/255*100, 0, 100) + 0.25*clamp(std/64*100, 0, 100), 0, 100)`. -/
noncomputable def lightingOfStats (mean std : ℝ) : ℝ :=
  rclamp (0.75 * rclamp (mean / 255 * 100) 0 100 + 0.25 * rclamp (std / 64 * 100) 0 100) 0 100

/-- The unit-square test polygon of the spec's point-in-polygon property. -/
def squarePoly : List Pt := [⟨0, 0⟩, ⟨10, 0⟩, ⟨10, 10⟩, ⟨0, 10⟩]

/-- C3: for every polygon with fewer than 3 vertices, `samplePolys` applied
to that single polygon returns the empty sample list — and, the embedding
being a total function, never throws — for every pixel buffer and every
sample budget. -/
theorem samplePolys_degenerate_empty (poly : List Pt) (h : poly.length < 3)
    (ctx : Canvas) (maxSamples : ℕ) : samplePolys ctx [poly] maxSamples = [] := by
  have hlen : ([poly] : List (List Pt)).flatten.length < 3 := by simpa using h
  unfold samplePolys
  rw [if_pos hlen]

theorem samplePolys_degenerate_empty_witness :
    ([(⟨0, 0⟩ : Pt), ⟨1, 1⟩] : List Pt).length < 3 ∧
      samplePolys ⟨4, 4, fun _ _ => (0, 0, 0)⟩ [[⟨0, 0⟩, ⟨1, 1⟩]] 2500 = [] :=
  ⟨by decide, samplePolys_degenerate_empty [⟨0, 0⟩, ⟨1, 1⟩] (by decide) _ 2500⟩

/-- C4: for every sample list of fewer than 80 samples, each of the three
scoring functions (lighting, redness, shine) returns 0, regardless of the
pixel values in the samples. -/
theorem under_sampled_scores_zero (rgb : List (ℚ × ℚ × ℚ)) (h : rgb.length < 80) :
    lightingFromSamples rgb = 0 ∧ rednessFromSamples rgb = 0 ∧
      shineFromSamples rgb = 0 := by
  unfold lightingFromSamples rednessFromSamples shineFromSamples
  rw [if_pos h, if_pos h, if_pos h]
  exact ⟨rfl, rfl, rfl⟩

theorem under_sampled_scores_zero_witness :
    ([((1:ℚ), 2, 3)] : List (ℚ × ℚ × ℚ)).length < 80 ∧
      (lightingFromSamples [((1:ℚ), 2, 3)] = 0 ∧
        rednessFromSamples [((1:ℚ), 2, 3)] = 0 ∧
        shineFromSamples [((1:ℚ), 2, 3)] = 0) :=
  ⟨by decide, under_sampled_scores_zero [((1:ℚ), 2, 3)] (by decide)⟩

/-- C8: for the square polygon (0,0),(10,0),(10,10),(0,10), the ray-casting
test classifies (5,5) as inside and (15,5) as outside, and the vertex (0,0)
receives the deterministic classification "inside" (the epsilon-shifted
crossing rule includes it). -/
theorem pointInPoly_square :
    pointInPoly ⟨5, 5⟩ squarePoly = true ∧
    pointInPoly ⟨15, 5⟩ squarePoly = false ∧
    pointInPoly ⟨0, 0⟩ squarePoly = true := by
  refine ⟨?_, ?_, ?_⟩ <;> norm_num [squarePoly, pointInPoly, List.foldl, List.getD]

/-- C1: the claim's error-handling half fails on the code: on a landmark
list missing a referenced index, `polyFrom` does not return an
empty/invalid polygon — `lm[i]` is `undefined` and `toPx` throws a
`TypeError` (first conjunct, evaluated at the left-cheek index list on an
empty landmark list).  The conversion half of the claim does hold: with all
indices present, the result maps each point to `(x*w, y*h)` (second
conjunct). -/
theorem polyFrom_missing_index_throws :
    polyFrom [] leftCheekIdxs 100 100 = Except.error JsError.typeError ∧
    polyFrom [⟨1/2, 1/4⟩, ⟨1, 1⟩] [0, 1] 640 480 =
      Except.ok [⟨320, 120⟩, ⟨640, 480⟩] :=
  ⟨rfl, by norm_num [polyFrom, toPx]⟩

/-- C9: when the frame timestamp equals the last processed timestamp, the
`runLoop` step is skipped entirely — the detector is not invoked, no
scoring runs, and the published scores, face count and last-processed
timestamp are all unchanged. -/
theorem stepLoop_dedup_skip (detect : Frame → List (List Pt)) (frame : Frame)
    (s : LoopState) (heq : frame.currentTime = s.lastVideoTime) :
    stepLoop detect frame s = Except.ok (s, ⟨false, false⟩) := by
  unfold stepLoop
  rw [if_neg]
  rintro ⟨-, hne⟩
  exact hne heq

theorem stepLoop_dedup_skip_witness :
    stepLoop (fun _ => [[⟨0, 0⟩]]) ⟨2, 7, ⟨4, 4, fun _ _ => (0, 0, 0)⟩⟩
        ⟨7, 3, ⟨11, 12, 13⟩⟩ =
      Except.ok (⟨7, 3, ⟨11, 12, 13⟩⟩, ⟨false, false⟩) :=
  stepLoop_dedup_skip _ _ _ rfl

/-- C10: on a new frame for which the detector returns zero faces, the
`runLoop` step publishes zero scores and a zero face count (discarding the
previous frame's scores), records the timestamp, and does not invoke any
scoring stage. -/
theorem stepLoop_zero_faces (detect : Frame → List (List Pt)) (frame : Frame)
    (s : LoopState) (hready : 2 ≤ frame.readyState)
    (hnew : frame.currentTime ≠ s.lastVideoTime) (hdet : detect frame = []) :
    stepLoop detect frame s =
      Except.ok (⟨frame.currentTime, 0, ⟨0, 0, 0⟩⟩, ⟨true, false⟩) := by
  unfold stepLoop
  rw [if_pos ⟨hready, hnew⟩]
  simp only [hdet, List.length_nil]

theorem stepLoop_zero_faces_witness :
    stepLoop (fun _ => []) ⟨2, 1, ⟨4, 4, fun _ _ => (0, 0, 0)⟩⟩ ⟨0, 4, ⟨9, 9, 9⟩⟩ =
      Except.ok (⟨1, 0, ⟨0, 0, 0⟩⟩, ⟨true, false⟩) :=
  stepLoop_zero_faces _ _ _ (by decide) (by norm_num) rfl

theorem trigRun_some_bound (c : ℕ) :
    ∀ (obs : List TrigObs) (l : ℕ), obs.Pairwise (fun a b => a.t ≤ b.t) →
      (∀ o ∈ obs, l ≤ o.t) →
      (∀ x ∈ trigRun ⟨some l, c⟩ obs, l + c ≤ x) ∧
        List.Chain' (fun a b => a + c ≤ b) (trigRun ⟨some l, c⟩ obs)
  | [], l, _, _ => by simp [trigRun]
  | o :: rest, l, hp, hl => by
    rw [List.pairwise_cons] at hp
    obtain ⟨hfirst, hrest⟩ := hp
    have hlo : l ≤ o.t := hl o (List.mem_cons_self o rest)
    by_cases hf : shouldFire ⟨some l, c⟩ o = true
    · have hct : c ≤ o.t - l := by
        simp only [shouldFire, Bool.and_eq_true, decide_eq_true_eq] at hf
        exact hf.2
      obtain ⟨ihb, ihc⟩ := trigRun_some_bound c rest o.t hrest hfirst
      rw [trigRun, if_pos hf]
      constructor
      · intro x hx
        rcases List.mem_cons.1 hx with rfl | hx
        · omega
        · have := ihb x hx
          omega
      · rw [List.chain'_cons']
        refine ⟨fun y hy => ?_, ihc⟩
        have := ihb y (List.mem_of_mem_head? hy)
        omega
    · rw [trigRun, if_neg hf]
      exact trigRun_some_bound c rest l hrest
        (fun o' ho' => hl o' (List.mem_cons_of_mem _ ho'))

theorem trigRun_none_chain (c : ℕ) :
    ∀ obs : List TrigObs, obs.Pairwise (fun a b => a.t ≤ b.t) →
      List.Chain' (fun a b => a + c ≤ b) (trigRun ⟨none, c⟩ obs)
  | [], _ => by simp [trigRun]
  | o :: rest, hp => by
    rw [List.pairwise_cons] at hp
    obtain ⟨hfirst, hrest⟩ := hp
    by_cases hf : shouldFire ⟨none, c⟩ o = true
    · rw [trigRun, if_pos hf, List.chain'_cons']
      obtain ⟨ihb, ihc⟩ := trigRun_some_bound c rest o.t hrest hfirst
      exact ⟨fun y hy => ihb y (List.mem_of_mem_head? hy), ihc⟩
    · rw [trigRun, if_neg hf]
      exact trigRun_none_chain c rest hrest

/-- C2: for every chronological run in which the lighting score is at least
the adequacy threshold and a face is present at every step, the modelled
AutoTriggerController with a 2500 ms cooldown never fires twice within a
cooldown window (consecutive fire timestamps are at least 2500 ms apart);
in particular, over the simulated 10,000 ms window with steps every 100 ms
it fires exactly 4 times, at t = 0, 2500, 5000, 7500, never closer together
than the cooldown. -/
theorem autoTrigger_rate_limited (obs : List TrigObs)
    (hchron : obs.Pairwise (fun a b => a.t ≤ b.t))
    (_hlight : ∀ o ∈ obs, 35 ≤ o.lighting) (_hface : ∀ o ∈ obs, 1 ≤ o.faces) :
    List.Chain' (fun a b => a + 2500 ≤ b) (trigRun ⟨none, 2500⟩ obs) ∧
    trigRun ⟨none, 2500⟩ simObs = [0, 2500, 5000, 7500] ∧
    List.Chain' (fun a b => a + 2500 ≤ b) (trigRun ⟨none, 2500⟩ simObs) := by
  have h : trigRun ⟨none, 2500⟩ simObs = [0, 2500, 5000, 7500] := by decide
  refine ⟨trigRun_none_chain 2500 obs hchron, h, ?_⟩
  rw [h]
  norm_num [List.chain'_cons, List.chain'_singleton]

theorem autoTrigger_rate_limited_witness :
    List.Chain' (fun a b => a + 2500 ≤ b) (trigRun ⟨none, 2500⟩ []) ∧
      trigRun ⟨none, 2500⟩ simObs = [0, 2500, 5000, 7500] ∧
      List.Chain' (fun a b => a + 2500 ≤ b) (trigRun ⟨none, 2500⟩ simObs) :=
  autoTrigger_rate_limited [] (by simp) (by simp) (by simp)

theorem foldl_add_map (f : (ℚ × ℚ × ℚ) → ℚ) :
    ∀ (l : List (ℚ × ℚ × ℚ)) (a : ℚ),
      l.foldl (fun acc s => acc + f s) a = a + (l.map f).sum
  | [], a => by simp
  | s :: rest, a => by
    simp only [List.foldl_cons, List.map_cons, List.sum_cons, foldl_add_map f rest]
    ring

theorem foldl_sums (l : List (ℚ × ℚ × ℚ)) (a b : ℚ) :
    l.foldl (fun p s => (p.1 + lumY s, p.2 + lumY s * lumY s)) (a, b) =
      (a + (l.map lumY).sum, b + (l.map (fun s => lumY s * lumY s)).sum) := by
  induction l generalizing a b with
  | nil => simp
  | cons s rest ih =>
    simp only [List.foldl_cons, List.map_cons, List.sum_cons, ih]
    rw [Prod.mk.injEq]
    constructor <;> ring

theorem sum_sq_dev (rgb : List (ℚ × ℚ × ℚ)) (m : ℚ) :
    (rgb.map fun s => (lumY s - m) ^ 2).sum =
      (rgb.map fun s => lumY s * lumY s).sum - 2 * m * (rgb.map lumY).sum +
        rgb.length * m ^ 2 := by
  induction rgb with
  | nil => simp
  | cons s rest ih =>
    simp only [List.map_cons, List.sum_cons, List.length_cons, ih]
    push_cast
    ring

theorem sum_sq_dev_nonneg (rgb : List (ℚ × ℚ × ℚ)) (m : ℚ) :
    0 ≤ (rgb.map fun s => (lumY s - m) ^ 2).sum := by
  apply List.sum_nonneg
  intro x hx
  obtain ⟨s, -, rfl⟩ := List.mem_map.1 hx
  positivity

theorem rclamp_lb (v : ℝ) : 0 ≤ rclamp v 0 100 := le_max_left _ _

theorem rclamp_ub (v : ℝ) : rclamp v 0 100 ≤ 100 :=
  max_le (by norm_num) (min_le_left _ _)

theorem rclamp_mono {v w : ℝ} (a b : ℝ) (h : v ≤ w) : rclamp v a b ≤ rclamp w a b :=
  max_le_max le_rfl (min_le_min le_rfl h)

theorem rclamp_of_le {v : ℝ} (h0 : 0 ≤ v) (h1 : v ≤ 100) : rclamp v 0 100 = v := by
  unfold rclamp
  rw [min_eq_right h1, max_eq_right h0]

theorem clamp_of_le {v : ℚ} (h0 : 0 ≤ v) (h1 : v ≤ 100) : clamp v 0 100 = v := by
  unfold clamp
  rw [min_eq_right h1, max_eq_right h0]

theorem lightingFromSamples_eq_stats (rgb : List (ℚ × ℚ × ℚ)) (h : 80 ≤ rgb.length) :
    lightingFromSamples rgb = lightingOfStats ((specMeanY rgb : ℚ) : ℝ) (specStdY rgb) := by
  have hnot : ¬ rgb.length < 80 := not_lt.mpr h
  have hn0 : (rgb.length : ℚ) ≠ 0 := by
    have hpos : 0 < rgb.length := lt_of_lt_of_le (by norm_num) h
    exact_mod_cast hpos.ne'
  unfold lightingFromSamples lightingOfStats specMeanY specStdY
  rw [if_neg hnot]
  simp only [foldl_sums, zero_add]
  have hvar : (rgb.map fun s => lumY s * lumY s).sum / (rgb.length : ℚ) -
      (rgb.map lumY).sum / (rgb.length : ℚ) * ((rgb.map lumY).sum / (rgb.length : ℚ)) =
      (rgb.map fun s => (lumY s - (rgb.map lumY).sum / (rgb.length : ℚ)) ^ 2).sum /
        (rgb.length : ℚ) := by
    rw [sum_sq_dev]
    field_simp
    ring
  have hmax : max 0 ((rgb.map fun s => lumY s * lumY s).sum / (rgb.length : ℚ) -
      (rgb.map lumY).sum / (rgb.length : ℚ) * ((rgb.map lumY).sum / (rgb.length : ℚ))) =
      (rgb.map fun s => (lumY s - (rgb.map lumY).sum / (rgb.length : ℚ)) ^ 2).sum /
        (rgb.length : ℚ) := by
    rw [hvar]
    exact max_eq_right (div_nonneg (sum_sq_dev_nonneg rgb _) (by positivity))
  rw [hmax]
  simp only [specMeanY]

theorem lightingOfStats_mono {m1 m2 : ℝ} (sd : ℝ) (h : m1 ≤ m2) :
    lightingOfStats m1 sd ≤ lightingOfStats m2 sd := by
  unfold lightingOfStats
  apply rclamp_mono
  have h2 : m1 / 255 * 100 ≤ m2 / 255 * 100 := by linarith
  have h3 := rclamp_mono (0 : ℝ) 100 h2
  linarith

/-- C6: for every sample list of at least 80 samples, the lighting score
equals the spec's closed form over the two-pass mean and population
standard deviation of the BT.709 luminances; it always lies in [0,100];
and it is monotonically non-decreasing in the mean when the standard
deviation is held fixed. -/
theorem lighting_score_formula (rgb : List (ℚ × ℚ × ℚ)) (h : 80 ≤ rgb.length)
    (m1 m2 sd : ℝ) (hm : m1 ≤ m2) :
    lightingFromSamples rgb = lightingOfStats ((specMeanY rgb : ℚ) : ℝ) (specStdY rgb) ∧
    0 ≤ lightingFromSamples rgb ∧ lightingFromSamples rgb ≤ 100 ∧
    lightingOfStats m1 sd ≤ lightingOfStats m2 sd := by
  have heq := lightingFromSamples_eq_stats rgb h
  refine ⟨heq, ?_, ?_, lightingOfStats_mono sd hm⟩
  · rw [heq]
    unfold lightingOfStats
    exact rclamp_lb _
  · rw [heq]
    unfold lightingOfStats
    exact rclamp_ub _

theorem lighting_score_formula_witness :
    lightingFromSamples (List.replicate 80 ((0:ℚ), 0, 0)) =
        lightingOfStats ((specMeanY (List.replicate 80 ((0:ℚ), 0, 0)) : ℚ) : ℝ)
          (specStdY (List.replicate 80 ((0:ℚ), 0, 0))) ∧
      0 ≤ lightingFromSamples (List.replicate 80 ((0:ℚ), 0, 0)) ∧
      lightingFromSamples (List.replicate 80 ((0:ℚ), 0, 0)) ≤ 100 ∧
      lightingOfStats 0 0 ≤ lightingOfStats 1 0 :=
  lighting_score_formula _ (by simp) 0 1 0 (by norm_num)

/-- C7: for every sample list of at least 80 samples, all equal to the
uniform gray pixel (128,128,128): the lighting score is exactly 640/17
(≈ 37.6: 0.75 of 128/255*100 with a zero contrast term), the redness score
is exactly 50/3 (≈ 16.7: the proxy r-(g+b)/2 is 0), and the shine score is
0 (value 128 does not exceed the 210 brightness threshold). -/
theorem uniform_gray_scores (rgb : List (ℚ × ℚ × ℚ)) (h : 80 ≤ rgb.length)
    (hu : ∀ s ∈ rgb, s = ((128 : ℚ), 128, 128)) :
    lightingFromSamples rgb = 640 / 17 ∧ |(640 : ℝ) / 17 - 37.6| < 1 / 10 ∧
    rednessFromSamples rgb = 50 / 3 ∧ |(50 : ℚ) / 3 - 16.7| < 1 / 10 ∧
    shineFromSamples rgb = 0 := by
  have hnot : ¬ rgb.length < 80 := not_lt.mpr h
  have hn0 : (rgb.length : ℚ) ≠ 0 := by
    have hpos : 0 < rgb.length := lt_of_lt_of_le (by norm_num) h
    exact_mod_cast hpos.ne'
  have hY : (rgb.map lumY).sum = (rgb.length : ℚ) * 128 := by
    rw [List.sum_eq_card_nsmul (rgb.map lumY) 128 ?hall]
    · simp [nsmul_eq_mul]
    case hall =>
      intro x hx
      obtain ⟨s, hs, rfl⟩ := List.mem_map.1 hx
      rw [hu s hs]
      norm_num [lumY]
  have hmean : specMeanY rgb = 128 := by
    unfold specMeanY
    rw [hY]
    field_simp
  have hstd : specStdY rgb = 0 := by
    unfold specStdY
    have hzero : (rgb.map fun s => (lumY s - specMeanY rgb) ^ 2).sum = 0 := by
      apply List.sum_eq_zero
      intro x hx
      obtain ⟨s, hs, rfl⟩ := List.mem_map.1 hx
      rw [hu s hs, hmean]
      norm_num [lumY]
    rw [hzero]
    simp
  have hlight := lightingFromSamples_eq_stats rgb h
  refine ⟨?_, by rw [abs_lt]; constructor <;> norm_num, ?_,
    by rw [abs_lt]; constructor <;> norm_num, ?_⟩
  · rw [hlight, hmean, hstd]
    unfold lightingOfStats
    rw [show ((128 : ℚ) : ℝ) = 128 by norm_num]
    have e1 : rclamp ((128 : ℝ) / 255 * 100) 0 100 = 128 / 255 * 100 :=
      rclamp_of_le (by norm_num) (by norm_num)
    have e2 : rclamp ((0 : ℝ) / 64 * 100) 0 100 = 0 / 64 * 100 :=
      rclamp_of_le (by norm_num) (by norm_num)
    rw [e1, e2, rclamp_of_le (by norm_num) (by norm_num)]
    norm_num
  · unfold rednessFromSamples
    rw [if_neg hnot, foldl_add_map]
    have hzero : (rgb.map fun s => s.1 - (s.2.1 + s.2.2) / 2).sum = 0 := by
      apply List.sum_eq_zero
      intro x hx
      obtain ⟨s, hs, rfl⟩ := List.mem_map.1 hx
      rw [hu s hs]
      norm_num
    rw [hzero]
    norm_num
    rw [clamp_of_le (by norm_num) (by norm_num)]
  · unfold shineFromSamples
    rw [if_neg hnot]
    have hcount : rgb.countP isShiny = 0 := by
      rw [List.countP_eq_zero]
      intro a ha
      rw [hu a ha]
      decide
    rw [hcount]
    norm_num
    rw [clamp_of_le (by norm_num) (by norm_num)]

theorem uniform_gray_scores_witness :
    lightingFromSamples (List.replicate 80 ((128 : ℚ), 128, 128)) = 640 / 17 ∧
      |(640 : ℝ) / 17 - 37.6| < 1 / 10 ∧
      rednessFromSamples (List.replicate 80 ((128 : ℚ), 128, 128)) = 50 / 3 ∧
      |(50 : ℚ) / 3 - 16.7| < 1 / 10 ∧
      shineFromSamples (List.replicate 80 ((128 : ℚ), 128, 128)) = 0 :=
  uniform_gray_scores _ (by simp) (fun s hs => List.eq_of_mem_replicate hs)

theorem jsRound_rat_zero : jsRound ((0 : ℚ) : ℝ) = 0 := by
  unfold jsRound
  rw [Rat.cast_zero, zero_add]
  exact Int.floor_eq_zero_iff.mpr (by constructor <;> norm_num)

/-- C5: whenever `drawAndScore` publishes a `ScoreSet` and the computed
lighting score of the combined cheek polygons is strictly below the
adequacy threshold 35, the published redness and shine scores are both 0
(they are never computed), whatever the raw pixel statistics would have
produced. -/
theorem low_lighting_zero_redness_shine (ctx : Canvas) (lm : List Pt)
    (lc rc np : List Pt)
    (hdim : ¬(ctx.width = 0 ∨ ctx.height = 0))
    (h1 : polyFrom lm leftCheekIdxs ctx.width ctx.height = Except.ok lc)
    (h2 : polyFrom lm rightCheekIdxs ctx.width ctx.height = Except.ok rc)
    (h3 : polyFrom lm noseIdxs ctx.width ctx.height = Except.ok np)
    (hlow : lightingQualityFromPolys ctx [lc, rc] < 35) :
    drawAndScore ctx lm =
      Except.ok (some ⟨jsRound (lightingQualityFromPolys ctx [lc, rc]), 0, 0⟩) := by
  unfold drawAndScore
  rw [if_neg hdim, h1, h2, h3]
  simp only [if_neg (not_le.mpr hlow), jsRound_rat_zero]

theorem jsRound_zero : jsRound 0 = 0 := by
  unfold jsRound
  rw [zero_add]
  exact Int.floor_eq_zero_iff.mpr (by constructor <;> norm_num)

set_option maxRecDepth 4000 in
theorem low_lighting_zero_redness_shine_witness :
    drawAndScore ⟨10, 10, fun _ _ => (0, 0, 0)⟩ (List.replicate 478 ⟨0, 0⟩) =
      Except.ok (some ⟨0, 0, 0⟩) := by
  have hsamp : samplePolys ⟨10, 10, fun _ _ => (0, 0, 0)⟩
      [[⟨0,0⟩, ⟨0,0⟩, ⟨0,0⟩, ⟨0,0⟩, ⟨0,0⟩, ⟨0,0⟩, ⟨0,0⟩, ⟨0,0⟩],
       [⟨0,0⟩, ⟨0,0⟩, ⟨0,0⟩, ⟨0,0⟩, ⟨0,0⟩, ⟨0,0⟩, ⟨0,0⟩, ⟨0,0⟩]] 2500 = [] := by
    norm_num [samplePolys, List.foldl]
  have hlight : lightingQualityFromPolys ⟨10, 10, fun _ _ => (0, 0, 0)⟩
      [[⟨0,0⟩, ⟨0,0⟩, ⟨0,0⟩, ⟨0,0⟩, ⟨0,0⟩, ⟨0,0⟩, ⟨0,0⟩, ⟨0,0⟩],
       [⟨0,0⟩, ⟨0,0⟩, ⟨0,0⟩, ⟨0,0⟩, ⟨0,0⟩, ⟨0,0⟩, ⟨0,0⟩, ⟨0,0⟩]] = 0 := by
    unfold lightingQualityFromPolys
    rw [hsamp]
    unfold lightingFromSamples
    norm_num
  have h := low_lighting_zero_redness_shine ⟨10, 10, fun _ _ => (0, 0, 0)⟩
      (List.replicate 478 ⟨0, 0⟩)
      [⟨0,0⟩, ⟨0,0⟩, ⟨0,0⟩, ⟨0,0⟩, ⟨0,0⟩, ⟨0,0⟩, ⟨0,0⟩, ⟨0,0⟩]
      [⟨0,0⟩, ⟨0,0⟩, ⟨0,0⟩, ⟨0,0⟩, ⟨0,0⟩, ⟨0,0⟩, ⟨0,0⟩, ⟨0,0⟩]
      [⟨0,0⟩, ⟨0,0⟩, ⟨0,0⟩, ⟨0,0⟩, ⟨0,0⟩]
      (by norm_num)
      (by norm_num [polyFrom, leftCheekIdxs, toPx, List.getElem?_replicate])
      (by norm_num [polyFrom, rightCheekIdxs, toPx, List.getElem?_replicate])
      (by norm_num [polyFrom, noseIdxs, toPx, List.getElem?_replicate])
      (by rw [hlight]; norm_num)
  rw [h, hlight, jsRound_zero]
